import Mathlib

/-!
Shallow embedding of the wrapAPI request pipeline.

The definitions below are translated from the repository source
(`APIFetcher`, `FetchHandler` and the surrounding configuration record):
JavaScript objects become association lists `List (String × JSVal)`,
`undefined` becomes `none`, JavaScript truthiness is made explicit, and
the transport (the injected `fetchAdapter`) becomes a function from the
invocation index to a response, so that one run of the handler is a pure
value together with a trace of transport calls and sleeps.
-/

/-- A JavaScript value as used by the wrapper: `null`, booleans, (integer)
numbers, strings, and plain objects as ordered key/value lists. -/
inductive JSVal where
  | null : JSVal
  | bool : Bool → JSVal
  | num : Int → JSVal
  | str : String → JSVal
  | obj : List (String × JSVal) → JSVal

/-- Property lookup on an ordered key/value list: the first binding wins,
like property access on a JavaScript object built from those entries. -/
def alookup {α : Type} : List (String × α) → String → Option α
  | [], _ => none
  | (k, v) :: rest, key => if k = key then some v else alookup rest key

/-- Left-biased choice on options (the shape of `a ?? b` for present/absent). -/
def optOr {α : Type} : Option α → Option α → Option α
  | some v, _ => some v
  | none, b => b

/-- JavaScript falsiness for the values representable as `JSVal`
(`null`, `false`, `0` and `""` are falsy; every object is truthy). -/
def jsFalsy : JSVal → Bool
  | JSVal.null => true
  | JSVal.bool b => !b
  | JSVal.num n => n == 0
  | JSVal.str s => s == ""
  | JSVal.obj _ => false

/-- Truthiness of a possibly-`undefined` value (`none` models `undefined`). -/
def jsTruthyOpt : Option JSVal → Bool
  | none => false
  | some v => !jsFalsy v

/-- The own enumerable properties contributed by spreading a value into an
object literal: objects contribute their fields, strings contribute their
indexed characters, and every other value contributes nothing. -/
def spreadFields : Option JSVal → List (String × JSVal)
  | some (JSVal.obj fs) => fs
  | some (JSVal.str s) =>
      s.data.enum.map (fun p => (toString p.1, JSVal.str (String.singleton p.2)))
  | _ => []

/-- The object literal `{...a, ...b}`: keys of `a` keep their position but
take `b`'s value when `b` also binds them; keys only in `b` are appended. -/
def spreadMerge (a b : List (String × JSVal)) : List (String × JSVal) :=
  a.map (fun p =>
    match alookup b p.1 with
    | some v => (p.1, v)
    | none => p)
  ++ b.filter (fun p => (alookup a p.1).isNone)

/-- Lower-case a string character by character. -/
def lowerStr (s : String) : String := String.mk (s.data.map Char.toLower)

/-- `Headers.get`: case-insensitive header lookup, `none` when absent. -/
def headersGet : List (String × String) → String → Option String
  | [], _ => none
  | (k, v) :: rest, key =>
      if lowerStr k = lowerStr key then some v else headersGet rest key

/-- Whether `pat` occurs as a contiguous sublist of `s`
(`s.indexOf(pat) !== -1` on the character lists). -/
def occursSub : List Char → List Char → Bool
  | pat, [] => pat.isPrefixOf ([] : List Char)
  | pat, c :: rest => pat.isPrefixOf (c :: rest) || occursSub pat rest

/-- `String.prototype.replace` with a plain-string pattern, on character
lists: only the first occurrence of `pat` is replaced by `repl`; when `pat`
does not occur the list is returned unchanged. -/
def repFirst : List Char → List Char → List Char → List Char
  | [], pat, repl => if pat.isPrefixOf ([] : List Char) then repl else []
  | c :: rest, pat, repl =>
      if pat.isPrefixOf (c :: rest) then repl ++ (c :: rest).drop pat.length
      else c :: repFirst rest pat repl

/-- `s.replace(pat, repl)` for plain-string patterns (first occurrence only). -/
def replaceFirst (s pat repl : String) : String :=
  String.mk (repFirst s.data pat.data repl.data)

/-- Value of a non-empty leading run of decimal digits; `none` when the list
does not start with a digit. -/
def digitsVal (cs : List Char) : Option Nat :=
  let ds := cs.takeWhile Char.isDigit
  if ds.isEmpty then none
  else some (ds.foldl (fun acc c => 10 * acc + (c.toNat - '0'.toNat)) 0)

/-- `parseInt(s, 10)` on the integer fragment used by the wrapper: skip
leading whitespace, accept an optional sign and a leading run of digits;
`none` models `NaN`. -/
def jsParseInt (s : String) : Option Int :=
  let cs := s.data.dropWhile (fun c => c == ' ' || c == '\t' || c == '\n' || c == '\r')
  match cs with
  | '-' :: rest => (digitsVal rest).map (fun n => -(n : Int))
  | '+' :: rest => (digitsVal rest).map (fun n => (n : Int))
  | _ => (digitsVal cs).map (fun n => (n : Int))

/-- Implicit numeric coercion of a string (as in `retryAfter * 1000`),
restricted to the integer fragment relevant to `Retry-After` values:
surrounding whitespace is trimmed, the empty string is `0`, a signed run of
digits is its value, anything else is `NaN` (`none`). -/
def jsToNumber (s : String) : Option Int :=
  let ws := fun c => c == ' ' || c == '\t' || c == '\n' || c == '\r'
  let cs := ((s.data.dropWhile ws).reverse.dropWhile ws).reverse
  match cs with
  | [] => some 0
  | '-' :: rest =>
      if !rest.isEmpty && rest.all Char.isDigit then (digitsVal rest).map (fun n => -(n : Int)) else none
  | '+' :: rest =>
      if !rest.isEmpty && rest.all Char.isDigit then (digitsVal rest).map (fun n => (n : Int)) else none
  | _ =>
      if cs.all Char.isDigit then (digitsVal cs).map (fun n => (n : Int)) else none

/-- A path-parameter value (`string | number`). -/
inductive PVal where
  | str : String → PVal
  | num : Int → PVal

/-- `value.toString()` for a path-parameter value. -/
def PVal.render : PVal → String
  | PVal.str s => s
  | PVal.num n => toString n

/-- Escape the two JSON-significant characters of a string body. -/
def escapeStr (s : String) : String :=
  s.data.foldl
    (fun acc c =>
      acc ++ (if c = '"' then "\\\"" else if c = '\\' then "\\\\" else String.singleton c))
    ""

mutual

/-- `JSON.stringify` on `JSVal` (object fields in list order). -/
def JSVal.stringify : JSVal → String
  | JSVal.null => "null"
  | JSVal.bool true => "true"
  | JSVal.bool false => "false"
  | JSVal.num n => toString n
  | JSVal.str s => "\"" ++ escapeStr s ++ "\""
  | JSVal.obj fs => "\x7b" ++ stringifyFields fs ++ "\x7d"

/-- Comma-separated `"key":value` serialization of object fields. -/
def stringifyFields : List (String × JSVal) → String
  | [] => ""
  | (k, v) :: rest =>
      "\"" ++ k ++ "\":" ++ JSVal.stringify v ++
      (if rest.isEmpty then "" else "," ++ stringifyFields rest)

end

/-- A transport response as the handler observes it: the `ok` flag, numeric
status, status text, headers, and the two body readers — `jsonBody = none`
models `response.json()` rejecting (malformed JSON), `textBody` is what
`response.text()` yields. -/
structure Response where
  ok : Bool
  status : Int
  statusText : String
  headers : List (String × String)
  jsonBody : Option JSVal
  textBody : String

/-- How one call of `FetchHandler.fetch` ends: a decoded value, a thrown
error (with its message), or resolving `undefined`. -/
inductive FetchOutcome where
  | ok : JSVal → FetchOutcome
  | thrown : String → FetchOutcome
  | undef : FetchOutcome

/-- One observable event of a handler run: the `i`-th transport invocation,
or sleeping for the given number of seconds (`none` models a `NaN` delay). -/
inductive Evt where
  | call : Nat → Evt
  | sleep : Option Int → Evt

/-- `FetchHandler.getResponseObject`: decode by content type. A truthy
content-type header containing `application/json` selects JSON decoding,
where a parse failure resolves to `null`; otherwise the raw text is used. -/
def FetchHandler.getResponseObject (r : Response) : JSVal :=
  match headersGet r.headers "content-type" with
  | none => JSVal.str r.textBody
  | some ct =>
      if ct != "" && occursSub "application/json".data ct.data then
        match r.jsonBody with
        | some v => v
        | none => JSVal.null
      else JSVal.str r.textBody

/-- `FetchHandler.retryRecursively`: while the budget is positive, sleep for
the given delay, re-invoke the transport, decode an `ok` response, recurse
on a 429 response with a truthy `Retry-After` header (parsed with
`parseInt`), and otherwise fall through, resolving `undefined`. The `Nat`
before the delay is the index of the next transport invocation. -/
def FetchHandler.retryRecursively (fm : Nat → Response) :
    Nat → Option Int → Nat → FetchOutcome × List Evt
  | _, _, 0 => (FetchOutcome.undef, [])
  | idx, retryAfter, Nat.succ k =>
      let r := fm idx
      if r.ok then
        (FetchOutcome.ok (FetchHandler.getResponseObject r),
         [Evt.sleep retryAfter, Evt.call idx])
      else if r.status == 429 then
        match headersGet r.headers "Retry-After" with
        | some s =>
            if s != "" then
              let res := FetchHandler.retryRecursively fm (idx + 1) (jsParseInt s) k
              (res.1, Evt.sleep retryAfter :: Evt.call idx :: res.2)
            else (FetchOutcome.undef, [Evt.sleep retryAfter, Evt.call idx])
        | none => (FetchOutcome.undef, [Evt.sleep retryAfter, Evt.call idx])
      else (FetchOutcome.undef, [Evt.sleep retryAfter, Evt.call idx])

/-- `FetchHandler.fetch`: invoke the transport once; decode an `ok`
response; on 429 either throw (`Retry-After` absent or empty) or hand the
raw header value (numerically coerced) to the retry loop; throw a transport
error on any other non-ok status. -/
def FetchHandler.fetch (fm : Nat → Response) (retryTimes : Nat) :
    FetchOutcome × List Evt :=
  let r := fm 0
  if !r.ok then
    if r.status == 429 then
      match headersGet r.headers "Retry-After" with
      | some s =>
          if s != "" then
            let res := FetchHandler.retryRecursively fm 1 (jsToNumber s) retryTimes
            (res.1, Evt.call 0 :: res.2)
          else
            (FetchOutcome.thrown
              ("APIFetcher - retry parse failure: " ++ toString r.status ++ " " ++ r.statusText),
             [Evt.call 0])
      | none =>
          (FetchOutcome.thrown
            ("APIFetcher - retry parse failure: " ++ toString r.status ++ " " ++ r.statusText),
           [Evt.call 0])
    else
      (FetchOutcome.thrown
        ("APIFetcher: " ++ toString r.status ++ " " ++ r.statusText),
       [Evt.call 0])
  else (FetchOutcome.ok (FetchHandler.getResponseObject r), [Evt.call 0])

/-- An endpoint definition as registered with the wrapper. -/
structure Endpoint where
  name : String
  path : String
  method : String
  body : Option JSVal
  params : Option (List (String × PVal))

/-- One entry of the per-endpoint default-parameter table. -/
structure DPEntry where
  params : Option (List (String × PVal))
  body : Option JSVal

/-- `this.defaultParams[endpoint]?.body`. -/
def dpBody (dp : List (String × DPEntry)) (e : String) : Option JSVal :=
  (alookup dp e).bind DPEntry.body

/-- `this.defaultParams[endpoint]?.body || {}`. -/
def defaultBodyOf (dp : List (String × DPEntry)) (e : String) : JSVal :=
  match dpBody dp e with
  | some v => if jsFalsy v then JSVal.obj [] else v
  | none => JSVal.obj []

/-- `APIFetcher.setRequestBody`: `undefined` when both the provided body
and the configured default body are falsy, and otherwise the object literal
`{...defaultBody, ...providedBody}`. -/
def setRequestBody (dp : List (String × DPEntry)) (endpoint : String)
    (providedBody : Option JSVal) : Option JSVal :=
  if !jsTruthyOpt providedBody && !jsTruthyOpt (dpBody dp endpoint) then none
  else
    some (JSVal.obj
      (spreadMerge (spreadFields (some (defaultBodyOf dp endpoint)))
        (spreadFields providedBody)))

/-- `APIFetcher.fillEndpointParams`: for each `[key, value]` entry of
`params` in order, replace the first occurrence of `":" ++ key` in the
partially filled template with `value.toString()`. -/
def fillEndpointParams (endpoint : String) (params : List (String × PVal)) : String :=
  params.foldl (fun filled p => replaceFirst filled (":" ++ p.1) (PVal.render p.2)) endpoint

/-- The parameter resolution on lines 144–145 of the source:
`params || (this.defaultParams[endpoint] || {}).params`: caller-supplied
params (any object — even `{}` — is truthy) win wholesale, otherwise the
endpoint's default params entry is consulted. -/
def resolveParams (dp : List (String × DPEntry)) (e : String)
    (callerParams : Option (List (String × PVal))) : Option (List (String × PVal)) :=
  match callerParams with
  | some p => some p
  | none => ((alookup dp e).getD ⟨none, none⟩).params

/-- JavaScript property assignment `m[k] = v` on the ordered-entries view
of an object: an existing key keeps its position and takes the new value, a
new key is appended. -/
def assocSet {α : Type} (m : List (String × α)) (k : String) (v : α) :
    List (String × α) :=
  if (alookup m k).isSome then m.map (fun p => if p.1 = k then (k, v) else p)
  else m ++ [(k, v)]

/-- The constructor's `endpoints.reduce((map, e) => { map[e.name] = e; ... }, {})`. -/
def buildEndpointMap (l : List Endpoint) : List (String × Endpoint) :=
  l.foldl (fun m e => assocSet m e.name e) []

/-- The configuration record accepted by the `APIFetcher` constructor
(`none` models an omitted field, so that the destructuring defaults apply). -/
structure APIFetcherConfig where
  apiBaseUrl : Option String
  caching : Option Bool
  headers : Option JSVal
  endpoints : List Endpoint
  defaultParams : Option (List (String × DPEntry))
  logging : Option Bool
  retryTimes : Option Nat

/-- The private state an `APIFetcher` instance holds after construction. -/
structure APIFetcherState where
  apiBaseUrl : String
  caching : Bool
  headers : JSVal
  endpoints : List (String × Endpoint)
  defaultParams : List (String × DPEntry)
  logging : Bool
  retryTimes : Nat

/-- The `APIFetcher` constructor: apply the destructuring defaults
(`apiBaseUrl = ''`, `headers = {}`, `defaultParams = {}`, `retryTimes = 5`,
…) and build the endpoint registry. -/
def mkAPIFetcher (cfg : APIFetcherConfig) : APIFetcherState :=
  { apiBaseUrl := cfg.apiBaseUrl.getD ""
  , caching := cfg.caching.getD false
  , headers := cfg.headers.getD (JSVal.obj [])
  , endpoints := buildEndpointMap cfg.endpoints
  , defaultParams := cfg.defaultParams.getD []
  , logging := cfg.logging.getD false
  , retryTimes := cfg.retryTimes.getD 5 }

/-- The argument object of `APIFetcher.fetchData`. -/
structure FetchArgs where
  endpoint : String
  body : Option JSVal
  params : Option (List (String × PVal))
  other : Option JSVal

/-- The injected transport: a response for each `(url, fetchParams)` pair
and invocation index (the index models the changing outside world across
re-sends of the identical request descriptor). -/
abbrev Transport : Type := String → List (String × JSVal) → Nat → Response

/-- What one `fetchData` call produces: either the tagged
`{error: 'endpoint not found', endpoint}` object without any transport
activity, or the request that was sent (url and fetch params) together with
the handler's outcome and event trace. -/
inductive FetchDataResult where
  | errObj : List (String × JSVal) → FetchDataResult
  | sent : String → List (String × JSVal) → FetchOutcome → List Evt → FetchDataResult

/-- The URL a `fetchData` result sent its request to, when it sent one. -/
def sentUrl : FetchDataResult → Option String
  | FetchDataResult.sent url _ _ _ => some url
  | _ => none

/-- The trace of transport/sleep events a `fetchData` result produced. -/
def sentTrace : FetchDataResult → List Evt
  | FetchDataResult.sent _ _ _ tr => tr
  | _ => []

/-- `APIFetcher.fetchData`: resolve params, look the endpoint up (returning
the tagged error object when absent), fill the path, resolve the body,
assemble `fetchParams = {method, headers, ...other}` plus — for non-GET
methods with a truthy body — the serialized body, and run the handler on
the closure re-sending that fixed request descriptor. -/
def fetchData (st : APIFetcherState) (tr : Transport) (args : FetchArgs) :
    FetchDataResult :=
  let endpointParams := resolveParams st.defaultParams args.endpoint args.params
  match alookup st.endpoints args.endpoint with
  | none =>
      FetchDataResult.errObj
        [("error", JSVal.str "endpoint not found"), ("endpoint", JSVal.str args.endpoint)]
  | some ep =>
      let filledEndpoint := fillEndpointParams ep.path (endpointParams.getD [])
      let requestBody := setRequestBody st.defaultParams ep.name args.body
      let fetchParams0 :=
        spreadMerge [("method", JSVal.str ep.method), ("headers", st.headers)]
          (spreadFields args.other)
      let fetchParams :=
        if ep.method != "GET" && jsTruthyOpt requestBody then
          spreadMerge fetchParams0
            [("body", JSVal.str (JSVal.stringify (requestBody.getD JSVal.null)))]
        else fetchParams0
      let url := st.apiBaseUrl ++ filledEndpoint
      let res := FetchHandler.fetch (fun i => tr url fetchParams i) st.retryTimes
      FetchDataResult.sent url fetchParams res.1 res.2

/-- Modelled from the spec: `resolveBody` as §4.1 words it — "if neither
caller body nor default body exists, the resulting body is absent;
otherwise produces a shallow merge `{...defaultBody, ...callerBody}`" —
reading "exists" as presence (the value is not `undefined`). Declared only
to be compared with the source's `setRequestBody`. -/
def resolveBodySpec (dp : List (String × DPEntry)) (e : String)
    (callerBody : Option JSVal) : Option JSVal :=
  if callerBody.isNone && (dpBody dp e).isNone then none
  else
    some (JSVal.obj (spreadMerge (spreadFields (dpBody dp e)) (spreadFields callerBody)))

/-- A 429 response carrying `Retry-After: 2`. -/
def rex429 : Response :=
  { ok := false, status := 429, statusText := "Too Many Requests"
  , headers := [("Retry-After", "2")], jsonBody := none, textBody := "" }

/-- A 429 response with no `Retry-After` header. -/
def rex429n : Response :=
  { ok := false, status := 429, statusText := "Too Many Requests"
  , headers := [], jsonBody := none, textBody := "" }

/-- A plain 500 failure response. -/
def rex500 : Response :=
  { ok := false, status := 500, statusText := "Server Error"
  , headers := [], jsonBody := none, textBody := "" }

/-- An `ok` JSON response whose body fails to parse (`response.json()` rejects). -/
def rexBadJson : Response :=
  { ok := true, status := 200, statusText := "OK"
  , headers := [("content-type", "application/json")], jsonBody := none, textBody := "not json" }

/-- An `ok` JSON response with a well-formed body. -/
def rexOk : Response :=
  { ok := true, status := 200, statusText := "OK"
  , headers := [("Content-Type", "application/json; charset=utf-8")]
  , jsonBody := some (JSVal.obj [("v", JSVal.num 7)]), textBody := "raw" }

/-- Transport behaviour: first response 429 with `Retry-After`, every retry
answered 429 without the header. -/
def fmC5 : Nat → Response := fun i => if i == 0 then rex429 else rex429n

/-- Transport behaviour: first response 429 with `Retry-After`, every retry
answered with a plain 500. -/
def fmC6 : Nat → Response := fun i => if i == 0 then rex429 else rex500

/-- A sample registered endpoint. -/
def epW : Endpoint :=
  { name := "getPage", path := "pages/:pageId", method := "GET", body := none, params := none }

/-- A sample configuration registering `epW`. -/
def cfgW : APIFetcherConfig :=
  { apiBaseUrl := some "https://api.example.com/", caching := none, headers := none
  , endpoints := [epW], defaultParams := none, logging := none, retryTimes := some 1 }

/-- A configuration that omits `retryTimes` (so the default applies). -/
def cfgW5 : APIFetcherConfig :=
  { apiBaseUrl := none, caching := none, headers := none
  , endpoints := [], defaultParams := none, logging := none, retryTimes := none }

/-- The fetcher state built from `cfgW`. -/
def stW : APIFetcherState := mkAPIFetcher cfgW

/-- A transport that always succeeds. -/
def trW : Transport := fun _ _ _ => rexOk

/-- A transport that always fails with 500 — distinct from `trW`. -/
def trW2 : Transport := fun _ _ _ => rex500

/-- Default-parameter table with default body `{a: 1, b: {x: 1}}` for `"e"`. -/
def dpW3 : List (String × DPEntry) :=
  [("e", { params := none
         , body := some (JSVal.obj [("a", JSVal.num 1), ("b", JSVal.obj [("x", JSVal.num 1)])]) })]

/-- Caller body `{b: {y: 2}}`. -/
def cbW3 : Option JSVal := some (JSVal.obj [("b", JSVal.obj [("y", JSVal.num 2)])])

/-- The merged body `{a: 1, b: {y: 2}}` the source computes from `dpW3`/`cbW3`. -/
def mW3 : List (String × JSVal) :=
  [("a", JSVal.num 1), ("b", JSVal.obj [("y", JSVal.num 2)])]

/-- A second endpoint sharing the name `"getPage"` but with a different path. -/
def epW2 : Endpoint :=
  { name := "getPage", path := "v2/pages/:pageId", method := "GET", body := none, params := none }

/-- A configuration registering two endpoints with the same name. -/
def cfgW10 : APIFetcherConfig :=
  { apiBaseUrl := some "https://api.example.com/", caching := none, headers := none
  , endpoints := [epW, epW2], defaultParams := none, logging := none, retryTimes := some 1 }

/-- The fetcher state built from `cfgW10`. -/
def stW10 : APIFetcherState := mkAPIFetcher cfgW10

/-! ## Helper lemmas -/

theorem optOr_none_right {α : Type} (a : Option α) : optOr a none = a := by
  cases a <;> rfl

theorem optOr_assoc {α : Type} (a b c : Option α) :
    optOr (optOr a b) c = optOr a (optOr b c) := by
  cases a <;> rfl

theorem alookup_append {α : Type} (xs ys : List (String × α)) (k : String) :
    alookup (xs ++ ys) k = optOr (alookup xs k) (alookup ys k) := by
  induction xs with
  | nil => rfl
  | cons p rest ih =>
      obtain ⟨a, b⟩ := p
      by_cases h : a = k <;> simp [alookup, h, ih, optOr]

theorem alookup_map_set_ne {α : Type} (m : List (String × α)) (k n : String) (v : α)
    (h : n ≠ k) :
    alookup (m.map (fun p => if p.1 = k then (k, v) else p)) n = alookup m n := by
  induction m with
  | nil => rfl
  | cons p rest ih =>
      obtain ⟨a, b⟩ := p
      simp only [List.map_cons]
      by_cases hak : a = k
      · rw [if_pos hak]
        subst hak
        simp [alookup, Ne.symm h, ih]
      · rw [if_neg hak]
        by_cases han : a = n <;> simp [alookup, han, ih]

theorem alookup_map_set_eq {α : Type} (m : List (String × α)) (k : String) (v : α)
    (h : (alookup m k).isSome) :
    alookup (m.map (fun p => if p.1 = k then (k, v) else p)) k = some v := by
  induction m with
  | nil => simp [alookup] at h
  | cons p rest ih =>
      obtain ⟨a, b⟩ := p
      simp only [List.map_cons]
      by_cases hak : a = k
      · rw [if_pos hak]
        simp [alookup]
      · rw [if_neg hak]
        have h' : (alookup rest k).isSome := by simpa [alookup, hak] using h
        simp [alookup, hak, ih h']

theorem alookup_assocSet {α : Type} (m : List (String × α)) (k n : String) (v : α) :
    alookup (assocSet m k v) n = if k = n then some v else alookup m n := by
  unfold assocSet
  by_cases hs : (alookup m k).isSome
  · rw [if_pos hs]
    by_cases hkn : k = n
    · subst hkn
      simp [alookup_map_set_eq m k v hs]
    · simp [hkn, alookup_map_set_ne m k n v (Ne.symm hkn)]
  · rw [if_neg hs]
    rw [alookup_append]
    have hnone : alookup m k = none := by
      cases hmk : alookup m k
      · rfl
      · rw [hmk] at hs; simp at hs
    by_cases hkn : k = n
    · subst hkn
      simp [alookup, hnone, optOr]
    · simp [alookup, hkn, optOr_none_right]

theorem find?_concat {α : Type} (p : α → Bool) (xs : List α) (e : α) :
    (xs ++ [e]).find? p = optOr (xs.find? p) (if p e then some e else none) := by
  induction xs with
  | nil =>
      simp only [List.nil_append, List.find?]
      cases hpe : p e <;> simp [hpe, optOr]
  | cons a rest ih =>
      cases hpa : p a <;> simp [List.find?, hpa, ih, optOr]

theorem alookup_eq_none_of_not_isSome {α : Type} (m : List (String × α)) (k : String)
    (h : ¬(alookup m k).isSome = true) : alookup m k = none := by
  cases hmk : alookup m k
  · rfl
  · rw [hmk] at h; simp at h

theorem not_mem_keys_of_alookup_none {α : Type} (m : List (String × α)) (k : String)
    (h : alookup m k = none) : k ∉ m.map Prod.fst := by
  induction m with
  | nil => simp
  | cons p rest ih =>
      obtain ⟨a, b⟩ := p
      by_cases hak : a = k
      · simp [alookup, hak] at h
      · simp [alookup, hak] at h
        simp only [List.map_cons, List.mem_cons]
        rintro (hka | hmem)
        · exact hak hka.symm
        · exact ih h hmem

theorem foldl_assocSet_alookup (l : List Endpoint) (m : List (String × Endpoint)) (n : String) :
    alookup (l.foldl (fun m e => assocSet m e.name e) m) n
      = optOr (l.reverse.find? (fun e => e.name == n)) (alookup m n) := by
  induction l generalizing m with
  | nil => simp [optOr]
  | cons e rest ih =>
      rw [List.foldl_cons, ih, List.reverse_cons, find?_concat, alookup_assocSet, optOr_assoc]
      by_cases h : e.name = n <;> simp [h, optOr]

theorem keys_assocSet_nodup {α : Type} (m : List (String × α)) (k : String) (v : α)
    (h : (m.map Prod.fst).Nodup) : ((assocSet m k v).map Prod.fst).Nodup := by
  unfold assocSet
  by_cases hs : (alookup m k).isSome
  · rw [if_pos hs]
    have hkeys : (m.map (fun p => if p.1 = k then (k, v) else p)).map Prod.fst
        = m.map Prod.fst := by
      rw [List.map_map]
      refine List.map_congr_left ?_
      intro p _
      by_cases hp : p.1 = k <;> simp [hp]
    rw [hkeys]; exact h
  · rw [if_neg hs]
    have hnone : alookup m k = none := alookup_eq_none_of_not_isSome m k hs
    have hnm : k ∉ m.map Prod.fst := not_mem_keys_of_alookup_none m k hnone
    simp [List.nodup_append, h, hnm]

theorem foldl_assocSet_keys_nodup (l : List Endpoint) (m : List (String × Endpoint))
    (h : (m.map Prod.fst).Nodup) :
    (((l.foldl (fun m e => assocSet m e.name e) m)).map Prod.fst).Nodup := by
  induction l generalizing m with
  | nil => exact h
  | cons e rest ih =>
      rw [List.foldl_cons]
      exact ih _ (keys_assocSet_nodup m e.name e h)

theorem alookup_map_override (b : List (String × JSVal)) (a : List (String × JSVal))
    (k : String) :
    alookup (a.map (fun p =>
        match alookup b p.1 with
        | some v => (p.1, v)
        | none => p)) k
      = (alookup a k).map (fun v => (alookup b k).getD v) := by
  induction a with
  | nil => rfl
  | cons p rest ih =>
      obtain ⟨a0, v0⟩ := p
      simp only [List.map_cons]
      by_cases hak : a0 = k
      · subst hak
        cases hb : alookup b a0 <;> simp [alookup, hb]
      · cases hb : alookup b a0 <;> simp [alookup, hb, hak, ih]

theorem alookup_filter_of_isSome (a : List (String × JSVal)) (k : String)
    (h : (alookup a k).isSome) (b : List (String × JSVal)) :
    alookup (b.filter (fun p => (alookup a p.1).isNone)) k = none := by
  induction b with
  | nil => rfl
  | cons p rest ih =>
      obtain ⟨b0, w⟩ := p
      by_cases hbk : b0 = k
      · subst hbk
        have : (alookup a b0).isNone = false := by
          cases hak : alookup a b0
          · rw [hak] at h; simp at h
          · rfl
        simp [List.filter_cons, this, ih]
      · cases hkeep : (alookup a b0).isNone <;>
          simp [List.filter_cons, hkeep, alookup, hbk, ih]

theorem alookup_filter_of_none (a : List (String × JSVal)) (k : String)
    (h : alookup a k = none) (b : List (String × JSVal)) :
    alookup (b.filter (fun p => (alookup a p.1).isNone)) k = alookup b k := by
  induction b with
  | nil => rfl
  | cons p rest ih =>
      obtain ⟨b0, w⟩ := p
      by_cases hbk : b0 = k
      · subst hbk
        simp [List.filter_cons, h, alookup]
      · cases hkeep : (alookup a b0).isNone <;>
          simp [List.filter_cons, hkeep, alookup, hbk, ih]

theorem alookup_spreadMerge (a b : List (String × JSVal)) (k : String) :
    alookup (spreadMerge a b) k = optOr (alookup b k) (alookup a k) := by
  unfold spreadMerge
  rw [alookup_append, alookup_map_override]
  cases ha : alookup a k
  · rw [alookup_filter_of_none a k ha b]
    cases hb : alookup b k <;> simp [optOr]
  · rw [alookup_filter_of_isSome a k (by simp [ha]) b]
    cases hb : alookup b k <;> simp [optOr, hb]

theorem spreadMerge_nil_right (a : List (String × JSVal)) : spreadMerge a [] = a := by
  unfold spreadMerge
  simp [alookup]

theorem spreadFields_falsy (cb : Option JSVal) (h : jsTruthyOpt cb = false) :
    spreadFields cb = [] := by
  match cb with
  | none => rfl
  | some JSVal.null => rfl
  | some (JSVal.bool b) => rfl
  | some (JSVal.num n) => rfl
  | some (JSVal.obj fs) => simp [jsTruthyOpt, jsFalsy] at h
  | some (JSVal.str s) =>
      simp only [jsTruthyOpt, jsFalsy, Bool.not_eq_false', beq_iff_eq] at h
      subst h
      rfl

theorem repFirst_exact (pat repl : List Char) :
    ∀ (a b : List Char),
      (∀ i, i < a.length → pat.isPrefixOf ((a ++ pat ++ b).drop i) = false) →
      repFirst (a ++ pat ++ b) pat repl = a ++ repl ++ b := by
  intro a
  induction a with
  | nil =>
      intro b _
      simp only [List.nil_append]
      match pat with
      | [] =>
          match b with
          | [] => simp [repFirst]
          | c :: rest => simp [repFirst, List.isPrefixOf]
      | p :: ps =>
          have hpre : (p :: ps).isPrefixOf ((p :: ps) ++ b) = true := by
            rw [List.isPrefixOf_iff_prefix]
            exact List.prefix_append _ _
          have hl : (p :: ps) ++ b = p :: (ps ++ b) := by simp
          rw [hl] at hpre
          have hunfold : repFirst (p :: (ps ++ b)) (p :: ps) repl
              = if (p :: ps).isPrefixOf (p :: (ps ++ b)) then
                  repl ++ (p :: (ps ++ b)).drop (p :: ps).length
                else p :: repFirst (ps ++ b) (p :: ps) repl := rfl
          show repFirst ((p :: ps) ++ b) (p :: ps) repl = repl ++ b
          rw [hl, hunfold, if_pos hpre]
          rw [List.length_cons, List.drop_succ_cons, List.drop_left]
  | cons c a' ih =>
      intro b h
      have h0 := h 0 (by simp)
      rw [List.drop_zero] at h0
      have hl : (c :: a') ++ pat ++ b = c :: (a' ++ pat ++ b) := by simp
      rw [hl] at h0 ⊢
      have hunfold : repFirst (c :: (a' ++ pat ++ b)) pat repl
          = if pat.isPrefixOf (c :: (a' ++ pat ++ b)) then
              repl ++ (c :: (a' ++ pat ++ b)).drop pat.length
            else c :: repFirst (a' ++ pat ++ b) pat repl := rfl
      rw [hunfold, if_neg (by simp only [h0]; simp)]
      simp only [List.cons_append]
      congr 1
      apply ih
      intro i hi
      have hstep := h (i + 1) (by simpa using Nat.succ_lt_succ hi)
      rw [hl] at hstep
      simpa [List.drop_succ_cons] using hstep

theorem repFirst_no_occur (pat repl : List Char) :
    ∀ s, occursSub pat s = false → repFirst s pat repl = s := by
  intro s
  induction s with
  | nil =>
      intro h
      simp only [occursSub] at h
      simp [repFirst, h]
  | cons c rest ih =>
      intro h
      simp only [occursSub, Bool.or_eq_false_iff] at h
      simp [repFirst, h.1, ih h.2]

theorem fillEndpointParams_unchanged (ps : List (String × PVal)) (t : String)
    (h : ∀ p ∈ ps, occursSub (":" ++ p.1).data t.data = false) :
    fillEndpointParams t ps = t := by
  induction ps generalizing t with
  | nil => rfl
  | cons p rest ih =>
      have hstep : replaceFirst t (":" ++ p.1) (PVal.render p.2) = t := by
        unfold replaceFirst
        rw [repFirst_no_occur _ _ _ (h p (by simp))]
      unfold fillEndpointParams
      rw [List.foldl_cons]
      show fillEndpointParams (replaceFirst t (":" ++ p.1) (PVal.render p.2)) rest = t
      rw [hstep]
      exact ih t (fun q hq => h q (by simp [hq]))

theorem retryRecursively_exhausts (fm : Nat → Response) (hdr : Nat → String) (v : Nat → Int)
    (N : Nat)
    (hresp : ∀ i, 1 ≤ i → i ≤ N →
      (fm i).ok = false ∧ (fm i).status = 429 ∧
      headersGet (fm i).headers "Retry-After" = some (hdr i) ∧ hdr i ≠ "" ∧
      jsParseInt (hdr i) = some (v i)) :
    ∀ (k idx : Nat) (ra : Option Int), 1 ≤ idx → idx + k = N + 1 →
      FetchHandler.retryRecursively fm idx ra k
        = (FetchOutcome.undef,
           (List.range k).flatMap (fun j =>
             [Evt.sleep (if j = 0 then ra else some (v (idx + j - 1))), Evt.call (idx + j)])) := by
  intro k
  induction k with
  | zero =>
      intro idx ra _ _
      simp [FetchHandler.retryRecursively]
  | succ k ih =>
      intro idx ra hidx hsum
      obtain ⟨hok, hst, hhd, hne, hv⟩ := hresp idx hidx (by omega)
      have hunfold : FetchHandler.retryRecursively fm idx ra (Nat.succ k)
          = (if (fm idx).ok then
              (FetchOutcome.ok (FetchHandler.getResponseObject (fm idx)),
               [Evt.sleep ra, Evt.call idx])
            else if (fm idx).status == 429 then
              match headersGet (fm idx).headers "Retry-After" with
              | some s =>
                  if s != "" then
                    let res := FetchHandler.retryRecursively fm (idx + 1) (jsParseInt s) k
                    (res.1, Evt.sleep ra :: Evt.call idx :: res.2)
                  else (FetchOutcome.undef, [Evt.sleep ra, Evt.call idx])
              | none => (FetchOutcome.undef, [Evt.sleep ra, Evt.call idx])
            else (FetchOutcome.undef, [Evt.sleep ra, Evt.call idx])) := rfl
      rw [hunfold, hok, hst, hhd]
      simp only [Bool.false_eq_true, if_false, beq_self_eq_true, if_true, bne_iff_ne, ne_eq,
        hne, not_false_eq_true, ↓reduceIte, hv]
      rw [ih (idx + 1) (some (v idx)) (by omega) (by omega)]
      rw [List.range_succ_eq_map, List.flatMap_cons, List.flatMap_map]
      dsimp only
      refine congrArg (Prod.mk FetchOutcome.undef) ?_
      have hfun : (fun j =>
            [Evt.sleep (if j = 0 then some (v idx) else some (v (idx + 1 + j - 1))),
             Evt.call (idx + 1 + j)])
          = (fun j => [Evt.sleep (if j.succ = 0 then ra else some (v (idx + j.succ - 1))),
             Evt.call (idx + j.succ)]) := by
        funext j
        cases j with
        | zero => simp
        | succ t =>
            simp only [Nat.succ_eq_add_one]
            have e1 : idx + 1 + (t + 1) - 1 = idx + (t + 1 + 1) - 1 := by omega
            have e2 : idx + 1 + (t + 1) = idx + (t + 1 + 1) := by omega
            simp [e1, e2]
      rw [hfun]
      simp

/-! ## Claim theorems -/

/-- C1: when the first response is a 429 carrying a truthy, integer
`Retry-After` header and every retry is answered the same way, the handler
sleeps the server-specified number of seconds before each re-send, invokes
the transport exactly `1 + retryTimes` times in total (the transport
closure is fixed, so each re-send uses the identical request descriptor),
sends nothing further, and resolves `undefined` (falsy) without throwing;
and a configuration omitting `retryTimes` gets the default budget 5. -/
theorem retry_budget_exhaustion (fm : Nat → Response) (retryTimes : Nat)
    (hdr : Nat → String) (v : Nat → Int)
    (hresp0 : (fm 0).ok = false ∧ (fm 0).status = 429 ∧
      headersGet (fm 0).headers "Retry-After" = some (hdr 0) ∧ hdr 0 ≠ "" ∧
      jsToNumber (hdr 0) = some (v 0))
    (hresp : ∀ i, i ≤ retryTimes → 1 ≤ i →
      (fm i).ok = false ∧ (fm i).status = 429 ∧
      headersGet (fm i).headers "Retry-After" = some (hdr i) ∧ hdr i ≠ "" ∧
      jsParseInt (hdr i) = some (v i)) :
    FetchHandler.fetch fm retryTimes
      = (FetchOutcome.undef,
         Evt.call 0 :: (List.range retryTimes).flatMap (fun j =>
           [Evt.sleep (some (v j)), Evt.call (j + 1)])) ∧
    (∀ cfg : APIFetcherConfig, cfg.retryTimes = none → (mkAPIFetcher cfg).retryTimes = 5) := by
  constructor
  · obtain ⟨hok, hst, hhd, hne, hv0⟩ := hresp0
    have hunfold : FetchHandler.fetch fm retryTimes
        = (if !(fm 0).ok then
            if (fm 0).status == 429 then
              match headersGet (fm 0).headers "Retry-After" with
              | some s =>
                  if s != "" then
                    let res := FetchHandler.retryRecursively fm 1 (jsToNumber s) retryTimes
                    (res.1, Evt.call 0 :: res.2)
                  else
                    (FetchOutcome.thrown
                      ("APIFetcher - retry parse failure: " ++ toString (fm 0).status ++ " "
                        ++ (fm 0).statusText),
                     [Evt.call 0])
              | none =>
                  (FetchOutcome.thrown
                    ("APIFetcher - retry parse failure: " ++ toString (fm 0).status ++ " "
                      ++ (fm 0).statusText),
                   [Evt.call 0])
            else
              (FetchOutcome.thrown
                ("APIFetcher: " ++ toString (fm 0).status ++ " " ++ (fm 0).statusText),
               [Evt.call 0])
          else (FetchOutcome.ok (FetchHandler.getResponseObject (fm 0)), [Evt.call 0])) := rfl
    rw [hunfold, hok, hst, hhd]
    simp only [Bool.not_false, if_true, beq_self_eq_true, bne_iff_ne, ne_eq, hne,
      not_false_eq_true, ↓reduceIte, hv0]
    rw [retryRecursively_exhausts fm hdr v retryTimes (fun i h1 h2 => hresp i h2 h1)
      retryTimes 1 (some (v 0)) (le_refl 1) (by omega)]
    dsimp only
    refine congrArg (Prod.mk FetchOutcome.undef) (congrArg (List.cons (Evt.call 0)) ?_)
    refine congrArg _ ?_
    funext j
    cases j with
    | zero => simp
    | succ t =>
        have e1 : 1 + (t + 1) - 1 = t + 1 := by omega
        have e2 : 1 + (t + 1) = t + 1 + 1 := by omega
        simp [e1, e2]
  · intro cfg h
    simp [mkAPIFetcher, h]

/-- C1 witness: with every response a 429 carrying `Retry-After: 2` and a
budget of 2 retries, the run is call, sleep 2, call, sleep 2, call and then
resolves `undefined`; an omitted `retryTimes` defaults to 5. -/
theorem retry_budget_exhaustion_witness :
    FetchHandler.fetch (fun _ => rex429) 2
      = (FetchOutcome.undef,
         [Evt.call 0, Evt.sleep (some 2), Evt.call 1, Evt.sleep (some 2), Evt.call 2]) ∧
    (mkAPIFetcher cfgW5).retryTimes = 5 := by
  have h := retry_budget_exhaustion (fun _ => rex429) 2 (fun _ => "2") (fun _ => 2)
    ⟨rfl, rfl, rfl, by decide, rfl⟩
    (fun i _ _ => ⟨rfl, rfl, rfl, by simp, rfl⟩)
  exact ⟨h.1.trans (by rfl), h.2 cfgW5 rfl⟩

/-- C4: invoking `fetchData` with an endpoint name that is not in the
registry returns the tagged object `{error: 'endpoint not found', endpoint}`
naming the missing endpoint, and the result does not depend on the injected
transport — no transport call is made. -/
theorem unknown_endpoint_tagged_error (st : APIFetcherState) (tr tr' : Transport)
    (args : FetchArgs) (h : alookup st.endpoints args.endpoint = none) :
    fetchData st tr args
      = FetchDataResult.errObj
          [("error", JSVal.str "endpoint not found"), ("endpoint", JSVal.str args.endpoint)] ∧
    fetchData st tr args = fetchData st tr' args := by
  unfold fetchData
  rw [h]
  exact ⟨rfl, rfl⟩

/-- C4 witness: invoking the unregistered name `"nope"` on the sample
fetcher returns the tagged error object and two different transports give
the same result. -/
theorem unknown_endpoint_tagged_error_witness :
    fetchData stW trW { endpoint := "nope", body := none, params := none, other := none }
      = FetchDataResult.errObj
          [("error", JSVal.str "endpoint not found"), ("endpoint", JSVal.str "nope")] ∧
    fetchData stW trW { endpoint := "nope", body := none, params := none, other := none }
      = fetchData stW trW2 { endpoint := "nope", body := none, params := none, other := none } :=
  unknown_endpoint_tagged_error stW trW trW2
    { endpoint := "nope", body := none, params := none, other := none } rfl

/-- C7: decoding inspects the content-type header: a truthy content-type
containing `application/json` selects JSON decoding — yielding the parsed
value, or `null` when the body fails to parse (no exception propagates) —
and any other (or absent) content-type yields the raw text body. -/
theorem decode_policy (r : Response) :
    (∀ ct v, headersGet r.headers "content-type" = some ct → ct ≠ "" →
       occursSub "application/json".data ct.data = true → r.jsonBody = some v →
       FetchHandler.getResponseObject r = v) ∧
    (∀ ct, headersGet r.headers "content-type" = some ct → ct ≠ "" →
       occursSub "application/json".data ct.data = true → r.jsonBody = none →
       FetchHandler.getResponseObject r = JSVal.null) ∧
    ((∀ ct, headersGet r.headers "content-type" = some ct →
        ct = "" ∨ occursSub "application/json".data ct.data = false) →
      FetchHandler.getResponseObject r = JSVal.str r.textBody) := by
  refine ⟨?_, ?_, ?_⟩
  · intro ct v hct hne hocc hj
    unfold FetchHandler.getResponseObject
    rw [hct]
    simp [hne, hocc, hj]
  · intro ct hct hne hocc hj
    unfold FetchHandler.getResponseObject
    rw [hct]
    simp [hne, hocc, hj]
  · intro h
    unfold FetchHandler.getResponseObject
    cases hct : headersGet r.headers "content-type" with
    | none => rfl
    | some ct =>
        rcases h ct hct with hemp | hocc
        · subst hemp
          simp
        · simp [hocc]

/-- C7 witness: an `ok` response with content-type `application/json` whose
body fails to parse decodes to `null`, not a thrown exception. -/
theorem decode_policy_witness :
    FetchHandler.getResponseObject rexBadJson = JSVal.null :=
  (decode_policy rexBadJson).2.1 "application/json" rfl (by decide) (by decide) rfl

/-- C8: caller-supplied params — even partial ones — are used exactly as
given (no field-level merge with defaults and no dependence on the default
table), an absent caller params argument falls back to the endpoint's
default params entry, and the URL actually requested is the path filled
from exactly the params this resolution picks. -/
theorem params_all_or_nothing :
    (∀ (dp : List (String × DPEntry)) (e : String) (p : List (String × PVal)),
       resolveParams dp e (some p) = some p) ∧
    (∀ (dp : List (String × DPEntry)) (e : String),
       resolveParams dp e none = ((alookup dp e).getD ⟨none, none⟩).params) ∧
    (∀ (st : APIFetcherState) (tr : Transport) (args : FetchArgs) (ep : Endpoint),
       alookup st.endpoints args.endpoint = some ep →
       sentUrl (fetchData st tr args)
         = some (st.apiBaseUrl ++ fillEndpointParams ep.path
             ((resolveParams st.defaultParams args.endpoint args.params).getD []))) := by
  refine ⟨fun _ _ _ => rfl, fun _ _ => rfl, ?_⟩
  intro st tr args ep h
  unfold fetchData
  rw [h]
  rfl

/-- C8 witness: invoking the sample endpoint with caller params
`{pageId: "abc"}` requests `<baseUrl>pages/abc`. -/
theorem params_all_or_nothing_witness :
    sentUrl (fetchData stW trW
        { endpoint := "getPage", body := none
        , params := some [("pageId", PVal.str "abc")], other := none })
      = some "https://api.example.com/pages/abc" := by
  have h := params_all_or_nothing.2.2 stW trW
    { endpoint := "getPage", body := none
    , params := some [("pageId", PVal.str "abc")], other := none } epW rfl
  exact h.trans (by rfl)

/-- C9: a falsy caller body (0, false, the empty string, null) is treated
exactly like an omitted body: `setRequestBody` returns the same result as
with no body, and when a (truthy object) default body is configured the
resolved body is the default body alone — no default key is overridden or
removed. -/
theorem falsy_body_ignored (dp : List (String × DPEntry)) (e : String) (cb : Option JSVal)
    (h : jsTruthyOpt cb = false) :
    setRequestBody dp e cb = setRequestBody dp e none ∧
    (∀ fs, dpBody dp e = some (JSVal.obj fs) →
      setRequestBody dp e cb = some (JSVal.obj fs)) := by
  constructor
  · unfold setRequestBody
    rw [h, spreadFields_falsy cb h]
    rfl
  · intro fs hfs
    have htrue : jsTruthyOpt (dpBody dp e) = true := by rw [hfs]; rfl
    have hdef : defaultBodyOf dp e = JSVal.obj fs := by unfold defaultBodyOf; rw [hfs]; rfl
    unfold setRequestBody
    rw [h, htrue, spreadFields_falsy cb h, hdef]
    simp [spreadFields, spreadMerge_nil_right]

/-- C9 witness: with default body `{a: 1, b: {x: 1}}` configured, a caller
body of `0` leaves the resolved body equal to the default body alone. -/
theorem falsy_body_ignored_witness :
    setRequestBody dpW3 "e" (some (JSVal.num 0))
      = some (JSVal.obj [("a", JSVal.num 1), ("b", JSVal.obj [("x", JSVal.num 1)])]) :=
  (falsy_body_ignored dpW3 "e" (some (JSVal.num 0)) (by decide)).2
    [("a", JSVal.num 1), ("b", JSVal.obj [("x", JSVal.num 1)])] rfl

theorem fetch_unfold (fm : Nat → Response) (retryTimes : Nat) :
    FetchHandler.fetch fm retryTimes
      = (if !(fm 0).ok then
          if (fm 0).status == 429 then
            match headersGet (fm 0).headers "Retry-After" with
            | some s =>
                if s != "" then
                  let res := FetchHandler.retryRecursively fm 1 (jsToNumber s) retryTimes
                  (res.1, Evt.call 0 :: res.2)
                else
                  (FetchOutcome.thrown
                    ("APIFetcher - retry parse failure: " ++ toString (fm 0).status ++ " "
                      ++ (fm 0).statusText),
                   [Evt.call 0])
            | none =>
                (FetchOutcome.thrown
                  ("APIFetcher - retry parse failure: " ++ toString (fm 0).status ++ " "
                    ++ (fm 0).statusText),
                 [Evt.call 0])
          else
            (FetchOutcome.thrown
              ("APIFetcher: " ++ toString (fm 0).status ++ " " ++ (fm 0).statusText),
             [Evt.call 0])
        else (FetchOutcome.ok (FetchHandler.getResponseObject (fm 0)), [Evt.call 0])) := rfl

theorem retryRecursively_unfold (fm : Nat → Response) (idx : Nat) (ra : Option Int) (k : Nat) :
    FetchHandler.retryRecursively fm idx ra (k + 1)
      = (if (fm idx).ok then
          (FetchOutcome.ok (FetchHandler.getResponseObject (fm idx)),
           [Evt.sleep ra, Evt.call idx])
        else if (fm idx).status == 429 then
          match headersGet (fm idx).headers "Retry-After" with
          | some s =>
              if s != "" then
                let res := FetchHandler.retryRecursively fm (idx + 1) (jsParseInt s) k
                (res.1, Evt.sleep ra :: Evt.call idx :: res.2)
              else (FetchOutcome.undef, [Evt.sleep ra, Evt.call idx])
          | none => (FetchOutcome.undef, [Evt.sleep ra, Evt.call idx])
        else (FetchOutcome.undef, [Evt.sleep ra, Evt.call idx])) := rfl

/-- C5 counterexample: the first response is a 429 with `Retry-After: 2`,
the retried request is answered 429 with no `Retry-After` header — and the
call resolves `undefined` (constructor `FetchOutcome.undef`, not
`FetchOutcome.thrown`) after exactly the two transport calls shown, so a
429 without `Retry-After` received during a retry is not surfaced as a
thrown error, contradicting the claim's universal "every request". -/
theorem rate_limit_missing_header_cex :
    FetchHandler.fetch fmC5 5
      = (FetchOutcome.undef, [Evt.call 0, Evt.sleep (some 2), Evt.call 1]) := by
  rfl

/-- C5 (amended): a 429 response without a `Retry-After` header on the
initial attempt makes the handler throw the "retry parse failure" error
carrying the status and status text, with no further transport call; the
same response received on a retry makes the call resolve `undefined` — also
with no further transport call, but without throwing. -/
theorem rate_limit_missing_header :
    (∀ (fm : Nat → Response) (rt : Nat),
       (fm 0).ok = false → (fm 0).status = 429 →
       headersGet (fm 0).headers "Retry-After" = none →
       FetchHandler.fetch fm rt
         = (FetchOutcome.thrown
             ("APIFetcher - retry parse failure: " ++ toString (fm 0).status ++ " "
               ++ (fm 0).statusText),
            [Evt.call 0])) ∧
    (∀ (fm : Nat → Response) (idx : Nat) (ra : Option Int) (k : Nat),
       (fm idx).ok = false → (fm idx).status = 429 →
       headersGet (fm idx).headers "Retry-After" = none →
       FetchHandler.retryRecursively fm idx ra (k + 1)
         = (FetchOutcome.undef, [Evt.sleep ra, Evt.call idx])) := by
  constructor
  · intro fm rt hok hst hh
    rw [fetch_unfold, hok, hst, hh]
    simp
  · intro fm idx ra k hok hst hh
    rw [retryRecursively_unfold, hok, hst, hh]
    simp

/-- C5 witness: an initial 429 with no `Retry-After` throws the protocol
error carrying status 429 and the status text, after a single call. -/
theorem rate_limit_missing_header_witness :
    FetchHandler.fetch (fun _ => rex429n) 5
      = (FetchOutcome.thrown "APIFetcher - retry parse failure: 429 Too Many Requests",
         [Evt.call 0]) := by
  have h := rate_limit_missing_header.1 (fun _ => rex429n) 5 rfl rfl rfl
  exact h.trans (by rfl)

/-- C6 counterexample: the first response is a 429 with `Retry-After: 2`
and the retried request is answered with a plain 500 — the call resolves
`undefined` (not `FetchOutcome.thrown`) after the two calls shown, so a
non-ok non-429 response received during a retry does not throw,
contradicting the claim's universal "every request". -/
theorem transport_error_throws_cex :
    FetchHandler.fetch fmC6 5
      = (FetchOutcome.undef, [Evt.call 0, Evt.sleep (some 2), Evt.call 1]) := by
  rfl

/-- C6 (amended): a non-ok response with status other than 429 on the
initial attempt makes the handler throw the structured transport error
carrying the status code and status text, without resending; the same
response received on a retry ends the call resolving `undefined` — also
without resending, but without throwing. -/
theorem transport_error_throws :
    (∀ (fm : Nat → Response) (rt : Nat),
       (fm 0).ok = false → (fm 0).status ≠ 429 →
       FetchHandler.fetch fm rt
         = (FetchOutcome.thrown
             ("APIFetcher: " ++ toString (fm 0).status ++ " " ++ (fm 0).statusText),
            [Evt.call 0])) ∧
    (∀ (fm : Nat → Response) (idx : Nat) (ra : Option Int) (k : Nat),
       (fm idx).ok = false → (fm idx).status ≠ 429 →
       FetchHandler.retryRecursively fm idx ra (k + 1)
         = (FetchOutcome.undef, [Evt.sleep ra, Evt.call idx])) := by
  constructor
  · intro fm rt hok hst
    rw [fetch_unfold, hok]
    simp [hst]
  · intro fm idx ra k hok hst
    rw [retryRecursively_unfold, hok]
    simp [hst]

/-- C6 witness: an initial 500 throws `APIFetcher: 500 Server Error` after
a single transport call. -/
theorem transport_error_throws_witness :
    FetchHandler.fetch (fun _ => rex500) 5
      = (FetchOutcome.thrown "APIFetcher: 500 Server Error", [Evt.call 0]) := by
  have h := transport_error_throws.1 (fun _ => rex500) 5 rfl (by decide)
  exact h.trans (by rfl)

/-- C10: the registry built by the constructor's `reduce` maps each name to
exactly one definition — its key list has no duplicates, looking a name up
yields the definition appearing last in the endpoint list with that name
(later entries overwrite earlier ones in place), and an invocation of that
name requests the URL built from that later definition's path. -/
theorem registry_last_wins (l : List Endpoint) (n : String) :
    alookup (buildEndpointMap l) n = l.reverse.find? (fun e => e.name == n) ∧
    ((buildEndpointMap l).map Prod.fst).Nodup ∧
    (∀ (st : APIFetcherState) (tr : Transport) (args : FetchArgs) (ep : Endpoint),
       st.endpoints = buildEndpointMap l → args.endpoint = n →
       l.reverse.find? (fun e => e.name == n) = some ep →
       sentUrl (fetchData st tr args)
         = some (st.apiBaseUrl ++ fillEndpointParams ep.path
             ((resolveParams st.defaultParams n args.params).getD []))) := by
  have h1 : alookup (buildEndpointMap l) n = l.reverse.find? (fun e => e.name == n) := by
    unfold buildEndpointMap
    rw [foldl_assocSet_alookup]
    exact optOr_none_right _
  refine ⟨h1, foldl_assocSet_keys_nodup l [] (by simp), ?_⟩
  intro st tr args ep hst harg hfind
  subst harg
  have hlook : alookup st.endpoints args.endpoint = some ep := by
    rw [hst, h1]
    exact hfind
  unfold fetchData
  rw [hlook]
  rfl

/-- C10 witness: registering two endpoints named `"getPage"` (paths
`pages/:pageId` then `v2/pages/:pageId`), the registry resolves the name to
the later definition and an invocation requests the `v2` URL. -/
theorem registry_last_wins_witness :
    alookup (buildEndpointMap [epW, epW2]) "getPage" = some epW2 ∧
    sentUrl (fetchData stW10 trW
        { endpoint := "getPage", body := none
        , params := some [("pageId", PVal.str "abc")], other := none })
      = some "https://api.example.com/v2/pages/abc" := by
  have h := registry_last_wins [epW, epW2] "getPage"
  refine ⟨h.1.trans (by rfl), ?_⟩
  have h3 := h.2.2 stW10 trW
    { endpoint := "getPage", body := none
    , params := some [("pageId", PVal.str "abc")], other := none } epW2 rfl rfl (by rfl)
  exact h3.trans (by rfl)

/-- C2 counterexample: on the template `":x/:x"` with params `{x: "1"}`,
`fillEndpointParams` yields `"1/:x"` — only the first occurrence of the
`:x` token is substituted — whereas the claim ("replaces every occurrence
of each `:key` token") demands `"1/1"`. -/
theorem fillEndpointParams_every_occurrence_cex :
    fillEndpointParams ":x/:x" [("x", PVal.str "1")] = "1/:x" ∧
    ("1/:x" : String) ≠ "1/1" := by
  exact ⟨rfl, by decide⟩

/-- C2 (amended): for each `(key, value)` entry of params in order,
`fillEndpointParams` replaces only the FIRST occurrence of the substring
`":" ++ key` in the partially filled template with the stringified value —
later occurrences remain verbatim; and a template in which no params key's
`:key` substring occurs at all is returned unchanged (in particular,
placeholders whose keys are absent from params stay literal). -/
theorem fillEndpointParams_first_occurrence :
    (∀ (a b k : String) (v : PVal),
       (∀ i, i < a.data.length →
         ((":" ++ k).data).isPrefixOf ((a.data ++ (":" ++ k).data ++ b.data).drop i) = false) →
       fillEndpointParams (a ++ ":" ++ k ++ b) [(k, v)] = a ++ PVal.render v ++ b) ∧
    (∀ (t : String) (ps : List (String × PVal)),
       (∀ p ∈ ps, occursSub (":" ++ p.1).data t.data = false) →
       fillEndpointParams t ps = t) := by
  constructor
  · intro a b k v h
    have hdata : (a ++ ":" ++ k ++ b).data = a.data ++ (":" ++ k).data ++ b.data := by
      simp [String.data_append]
    unfold fillEndpointParams
    rw [List.foldl_cons, List.foldl_nil]
    show replaceFirst (a ++ ":" ++ k ++ b) (":" ++ k) (PVal.render v) = a ++ PVal.render v ++ b
    unfold replaceFirst
    rw [hdata, repFirst_exact ((":" ++ k).data) ((PVal.render v).data) a.data b.data h]
    have hrhs : (a ++ PVal.render v ++ b).data = a.data ++ (PVal.render v).data ++ b.data := by
      simp [String.data_append]
    rw [← hrhs]
  · intro t ps h
    exact fillEndpointParams_unchanged ps t h

/-- C2 witness: a single `:id` placeholder is substituted
(`/users/:id/posts` with `{id: 42}` gives `/users/42/posts`), and a
template whose placeholder key is absent from params is returned verbatim. -/
theorem fillEndpointParams_first_occurrence_witness :
    fillEndpointParams "/users/:id/posts" [("id", PVal.num 42)] = "/users/42/posts" ∧
    fillEndpointParams "/a/:missing" [] = "/a/:missing" := by
  constructor
  · have h := fillEndpointParams_first_occurrence.1 "/users/" "/posts" "id" (PVal.num 42)
      (by decide)
    exact h.trans (by rfl)
  · exact fillEndpointParams_first_occurrence.2 "/a/:missing" [] (by simp)

/-- C3 counterexample: with no default body configured and the caller body
`0` — a body that is supplied, hence "exists" — the source's
`setRequestBody` returns `undefined` (the body is omitted), while the
spec-worded `resolveBodySpec` produces the (present) shallow merge `{}`; so
the claim's "otherwise returns the shallow merge" is false for a falsy
caller body. -/
theorem setRequestBody_exists_cex :
    setRequestBody [] "e" (some (JSVal.num 0)) = none ∧
    resolveBodySpec [] "e" (some (JSVal.num 0)) = some (JSVal.obj []) ∧
    (none : Option JSVal) ≠ some (JSVal.obj []) := by
  refine ⟨rfl, rfl, ?_⟩
  intro hx
  exact Option.noConfusion hx

/-- C3 (amended): `setRequestBody` returns an absent body exactly when both
the caller body and the configured default body are falsy (absent, null,
`0`, `false` or `""`); otherwise it returns the object
`{...defaultBody, ...callerBody}`, whose lookup at every top-level key is
the caller's binding when the caller supplies one (so a nested object given
by the caller fully replaces a same-named nested default) and the default's
binding otherwise. -/
theorem setRequestBody_shallow_merge (dp : List (String × DPEntry)) (e : String)
    (cb : Option JSVal) :
    (setRequestBody dp e cb = none ↔
       (jsTruthyOpt cb = false ∧ jsTruthyOpt (dpBody dp e) = false)) ∧
    (∀ m k, setRequestBody dp e cb = some (JSVal.obj m) →
       alookup m k = optOr (alookup (spreadFields cb) k)
         (alookup (spreadFields (some (defaultBodyOf dp e))) k)) := by
  constructor
  · unfold setRequestBody
    by_cases h : (!jsTruthyOpt cb && !jsTruthyOpt (dpBody dp e)) = true
    · rw [if_pos h]
      simp only [Bool.and_eq_true, Bool.not_eq_true'] at h
      simp [h]
    · rw [if_neg h]
      simp only [Bool.and_eq_true, Bool.not_eq_true'] at h
      exact iff_of_false (by simp) h
  · intro m k hm
    unfold setRequestBody at hm
    by_cases h : (!jsTruthyOpt cb && !jsTruthyOpt (dpBody dp e)) = true
    · rw [if_pos h] at hm
      exact Option.noConfusion hm
    · rw [if_neg h] at hm
      have hobj := Option.some.inj hm
      have hm' : spreadMerge (spreadFields (some (defaultBodyOf dp e))) (spreadFields cb)
          = m := by
        injection hobj
      rw [← hm']
      exact alookup_spreadMerge _ _ k

/-- C3 witness: with default body `{a: 1, b: {x: 1}}` and caller body
`{b: {y: 2}}`, the resolved body is `{a: 1, b: {y: 2}}` and its binding at
`"b"` is the caller's nested object — the nested default is fully replaced. -/
theorem setRequestBody_shallow_merge_witness :
    setRequestBody dpW3 "e" cbW3 = some (JSVal.obj mW3) ∧
    alookup mW3 "b" = optOr (alookup (spreadFields cbW3) "b")
      (alookup (spreadFields (some (defaultBodyOf dpW3 "e"))) "b") :=
  ⟨rfl, (setRequestBody_shallow_merge dpW3 "e" cbW3).2 mW3 "b" rfl⟩
